import Mathlib

/-!
Shallow embedding of `src/app.py` (a two-tab Streamlit study aid) and proofs
about it.

Modelling conventions:
* A pandas `DataFrame` is a header (list of column names) plus a list of rows,
  each row a list of cells.  A cell is either a string or a number (pandas
  dtype inference turns numeric CSV columns into integers).
* `pd.read_csv` is an external library call; its outcome is an input of the
  loader model: `Except.ok df` when parsing succeeds, `Except.error msg` when
  `read_csv` raises (missing file, bad encoding, malformed delimiters).
* Python exceptions that code of the repository itself can raise past a statement
  (`KeyError` from `df[...]`/`row[...]`, `IndexError` from `.iloc`) are
  modelled with `Except PyErr`.
* `random.randint(a, b)` is modelled as a function of an extra entropy
  argument, uniform over the inclusive range `[a, b]` by taking the entropy
  modulo the size of the range.
* The rendered surface of each tab is reified as a view value (`VivaView`,
  `GlossaryView`) recording what the `st.*` calls display.
-/

/-- A single cell of a loaded table: pandas object (string) or integer. -/
inductive Cell
  | str (s : String)
  | num (n : Nat)
deriving DecidableEq

/-- A pandas DataFrame: column names plus rows of cells. -/
structure DataFrame where
  cols : List String
  rows : List (List Cell)
deriving DecidableEq

/-- `df.empty` in pandas: true when either axis has length 0. -/
def DataFrame.empty (df : DataFrame) : Bool :=
  df.rows.isEmpty || df.cols.isEmpty

/-- Python exceptions the repository code itself can raise. -/
inductive PyErr
  | keyError (key : String)
  | indexError
deriving DecidableEq

/-- `df[c]` column access: the cell list of column `c`, or a `KeyError`. -/
def DataFrame.col (df : DataFrame) (c : String) : Except PyErr (List Cell) :=
  match df.cols.findIdx? (fun x => x = c) with
  | some i => .ok (df.rows.map (fun r => r.getD i (.str "")))
  | none => .error (.keyError c)

/-- `row[c]` strict access on a row (a KeyError when the column is absent). -/
def rowGetStrict (cols : List String) (row : List Cell) (c : String) :
    Except PyErr Cell :=
  match cols.findIdx? (fun x => x = c) with
  | some i => .ok (row.getD i (.str ""))
  | none => .error (.keyError c)

/-- `row.get(c, fallback)`: like `row[c]` but total, with a default. -/
def rowGetLoose (cols : List String) (row : List Cell) (c : String)
    (fallback : Cell) : Cell :=
  match cols.findIdx? (fun x => x = c) with
  | some i => row.getD i (.str "")
  | none => fallback

/-- `filtered_df.iloc[i]` positional row access (IndexError out of range). -/
def iloc (rows : List (List Cell)) (i : Nat) : Except PyErr (List Cell) :=
  match rows[i]? with
  | some r => .ok r
  | none => .error .indexError

/-- Schema resolution of `load_qa_data` (app.py lines 26-33): rename a column
literally called "Question Number"; else assign positional names when there
are exactly 4 or exactly 3 columns; else leave the header unchanged. -/
def resolveSchema (cols : List String) : List String :=
  if "Question Number" ∈ cols then
    cols.map (fun c => if c = "Question Number" then "question_num" else c)
  else if cols.length = 4 then ["Section", "question_num", "Question", "Answer"]
  else if cols.length = 3 then ["question_num", "Question", "Answer"]
  else cols

/-- `load_qa_data` (app.py lines 17-36): on a successful parse, apply schema
resolution; any exception from parsing is caught and turned into `None`. -/
def load_qa_data (src : Except String DataFrame) : Option DataFrame :=
  match src with
  | .error _ => none
  | .ok df => some { cols := resolveSchema df.cols, rows := df.rows }

/-- `load_glossary_data` (app.py lines 38-47): pass a successful parse
through; any exception from parsing is caught and turned into `None`. -/
def load_glossary_data (src : Except String DataFrame) : Option DataFrame :=
  match src with
  | .error _ => none
  | .ok df => some df

/-- `series.isin(selected)` for one cell against a list of section labels:
a string cell is tested for membership, a numeric cell never matches. -/
def Cell.isinStr : Cell → List String → Bool
  | .str s, l => l.contains s
  | .num _, _ => false

/-- Comparison used on the `question_num` sort key: numeric cells compare
numerically, string cells lexicographically (pandas compares within a dtype;
the mixed cases are fixed arbitrarily and never arise in a parsed column). -/
def Cell.le : Cell → Cell → Bool
  | .num m, .num n => decide (m ≤ n)
  | .num _, .str _ => true
  | .str _, .num _ => false
  | .str s, .str t => decide (s ≤ t)

/-- Position of a section cell within the ordered selection, i.e. the code of
`pd.Categorical(_, categories=selected, ordered=True)`; a value outside the
categories (NaN) sorts after every category. -/
def posIn (selected : List String) (c : Cell) : Nat :=
  match c with
  | .str s => selected.findIdx (fun x => x = s)
  | .num _ => selected.length

/-- The two-key sort order of the sort_values call on section_order then
question_num: primarily the position of the section of a row within the
selection, secondarily
the `question_num` cell. -/
def rowKeyLe (selected : List String) (iSec iQ : Nat) (a b : List Cell) : Bool :=
  if posIn selected (a.getD iSec (.str "")) < posIn selected (b.getD iSec (.str "")) then
    true
  else if posIn selected (a.getD iSec (.str "")) = posIn selected (b.getD iSec (.str "")) then
    Cell.le (a.getD iQ (.str "")) (b.getD iQ (.str ""))
  else false

/-- The filter/orderer of `viva_tab` (app.py lines 144-155): with an empty
selection the result is `pd.DataFrame()`; otherwise keep the rows whose
`Section` is in the selection and sort them by selection position then by
`question_num` (pandas multi-key sorting is stable, as is insertion sort).
Column accesses raise `KeyError` when the column is missing. -/
def filterOrderDF (df : DataFrame) (selected : List String) :
    Except PyErr DataFrame :=
  if selected.isEmpty then .ok { cols := [], rows := [] }
  else
    match df.cols.findIdx? (fun x => x = "Section") with
    | none => .error (.keyError "Section")
    | some iSec =>
      match df.cols.findIdx? (fun x => x = "question_num") with
      | none => .error (.keyError "question_num")
      | some iQ =>
        let kept := df.rows.filter
          (fun r => Cell.isinStr (r.getD iSec (.str "")) selected)
        .ok { cols := df.cols,
              rows := kept.insertionSort
                (fun a b => rowKeyLe selected iSec iQ a b = true) }

/-- `⏮ First` button handler (app.py line 190). -/
def firstIndex : Nat := 0

/-- `⏪ Previous` button handler (app.py lines 195-196):
decrement only when the index is positive. -/
def prevIndex (i : Nat) : Nat :=
  if 0 < i then i - 1 else i

/-- `⏩ Next` button handler (app.py lines 201-202):
increment only below the last position. -/
def nextIndex (n i : Nat) : Nat :=
  if i < n - 1 then i + 1 else i

/-- `⏭ Last` button handler (app.py line 207). -/
def lastIndex (n : Nat) : Nat := n - 1

/-- `random.randint(a, b)` of the Python standard library: a uniformly chosen
integer of the inclusive range `[a, b]`, here as a function of fresh entropy. -/
def randint (a b entropy : Nat) : Nat :=
  a + entropy % (b + 1 - a)

/-- `🔀 Random` button handler (app.py line 213):
`random.randint(0, len(filtered_df) - 1)`. -/
def randomIndex (n entropy : Nat) : Nat :=
  randint 0 (n - 1) entropy

/-- The re-entry clamp (app.py lines 178-179): an index at or beyond the
filtered length is pulled back to the last valid position. -/
def clampIndex (i n : Nat) : Nat :=
  if n ≤ i then n - 1 else i

/-- What the Viva Q&A tab renders. -/
inductive VivaView
  /-- `st.error` load-failure state (app.py line 228). -/
  | errorMsg (msg : String)
  /-- Empty-filter state (app.py lines 162-174): a warning plus the five
  navigation buttons with their disabled flags. -/
  | emptyFilter (warning : String) (buttons : List (String × Bool))
  /-- One record (app.py lines 182-223): clamped index, filtered length,
  section label, question-number label, question text, answer text. -/
  | record (index total : Nat) (sectionLabel qnumLabel question answer : Cell)
deriving DecidableEq

/-- Number of Q&A records a view displays. -/
def VivaView.recordCount : VivaView → Nat
  | .record .. => 1
  | _ => 0

/-- What the Glossary tab renders. -/
inductive GlossaryView
  /-- `st.error` load-failure state (app.py line 294). -/
  | errorMsg (msg : String)
  /-- The static table (app.py lines 241-291): term count and all
  (term, definition) pairs in loaded order. -/
  | table (count : Nat) (entries : List (Cell × Cell))
deriving DecidableEq

/-- Number of glossary entries a view displays. -/
def GlossaryView.recordCount : GlossaryView → Nat
  | .table _ entries => entries.length
  | .errorMsg _ => 0

/-- The five navigation buttons as rendered in the empty-filter state
(app.py lines 164-174), each with `disabled=True`. -/
def disabledNavButtons : List (String × Bool) :=
  [("⏮ First", true), ("⏪ Previous", true), ("⏩ Next", true),
   ("⏭ Last", true), ("🔀 Random", true)]

/-- Warning shown when the filtered sequence is empty (app.py line 162). -/
def noQuestionsWarning : String :=
  "No questions to display. Please select at least one section."

/-- Error message of the Viva tab load-failure state (app.py line 228). -/
def vivaLoadError : String := "⚠️ Could not load viva data"

/-- Error message of the Glossary tab load-failure state (app.py line 294). -/
def glossaryLoadError : String := "⚠️ Could not load glossary data"

/-- `viva_tab` (app.py lines 101-228), given the load result, the multiselect
value and the stored `current_index`; returns the rendered view and the
`current_index` left in session state, or the uncaught exception.  The steps
mirror the source: load check, the Section column access for the section count
(line 111), filter/order (lines 144-155), empty-filter early return
(lines 161-175), index clamp (lines 178-179), `.iloc` row fetch (line 217),
and the record display (lines 219-223) with `.get` fallbacks for the section
and question-number labels and strict access for question and answer. -/
def viva_tab (load : Option DataFrame) (selected : List String) (idx : Nat) :
    Except PyErr (VivaView × Nat) :=
  match load with
  | none => .ok (.errorMsg vivaLoadError, idx)
  | some df =>
    if df.empty then .ok (.errorMsg vivaLoadError, idx)
    else
      match df.col "Section" with
      | .error e => .error e
      | .ok _ =>
        match filterOrderDF df selected with
        | .error e => .error e
        | .ok filtered =>
          if filtered.rows.length = 0 then
            .ok (.emptyFilter noQuestionsWarning disabledNavButtons, idx)
          else
            let n := filtered.rows.length
            let i := clampIndex idx n
            match iloc filtered.rows i with
            | .error e => .error e
            | .ok row =>
              match rowGetStrict filtered.cols row "Question" with
              | .error e => .error e
              | .ok q =>
                match rowGetStrict filtered.cols row "Answer" with
                | .error e => .error e
                | .ok a =>
                  .ok (.record i n
                        (rowGetLoose filtered.cols row "Section" (.num (i + 1)))
                        (rowGetLoose filtered.cols row "question_num" (.num (i + 1)))
                        q a, i)

/-- The glossary table body (app.py lines 282-288): the Term and Definition
cells of every row, in loaded order, both strict accesses. -/
def glossaryEntries (cols : List String) :
    List (List Cell) → Except PyErr (List (Cell × Cell))
  | [] => .ok []
  | r :: rs =>
    match rowGetStrict cols r "Term" with
    | .error e => .error e
    | .ok t =>
      match rowGetStrict cols r "Definition" with
      | .error e => .error e
      | .ok d =>
        match glossaryEntries cols rs with
        | .error e => .error e
        | .ok rest => .ok ((t, d) :: rest)

/-- `glossary_tab` (app.py lines 230-294): load check, then the static
term/definition table with its count, else the error state. -/
def glossary_tab (load : Option DataFrame) : Except PyErr GlossaryView :=
  match load with
  | none => .ok (.errorMsg glossaryLoadError)
  | some df =>
    if df.empty then .ok (.errorMsg glossaryLoadError)
    else
      match glossaryEntries df.cols df.rows with
      | .error e => .error e
      | .ok entries => .ok (.table df.rows.length entries)

namespace App

/-- `main` (app.py lines 296-304): render the Viva tab, then the Glossary
tab; an uncaught exception of an earlier tab stops the script. -/
def main (qaSrc glosSrc : Except String DataFrame) (selected : List String)
    (idx : Nat) : Except PyErr ((VivaView × Nat) × GlossaryView) :=
  match viva_tab (load_qa_data qaSrc) selected idx with
  | .error e => .error e
  | .ok v =>
    match glossary_tab (load_glossary_data glosSrc) with
    | .error e => .error e
    | .ok g => .ok (v, g)

end App

/-! ### Concrete data used by the claims -/

/-- The resolved 4-column question header. -/
def qaCols : List String := ["Section", "question_num", "Question", "Answer"]

/-- Example row (SectionA, 1, Q1, A1). -/
def exRowA1 : List Cell := [.str "SectionA", .num 1, .str "Q1", .str "A1"]

/-- Example row (SectionA, 2, Q2, A2). -/
def exRowA2 : List Cell := [.str "SectionA", .num 2, .str "Q2", .str "A2"]

/-- Example row (SectionB, 1, Q3, A3). -/
def exRowB1 : List Cell := [.str "SectionB", .num 1, .str "Q3", .str "A3"]

/-- The example table of the concrete filter/order scenario in the spec. -/
def exampleDF : DataFrame := { cols := qaCols, rows := [exRowA1, exRowA2, exRowB1] }

/-- A parsed 3-column question file: one data row, no section column. -/
def threeColRaw : DataFrame :=
  { cols := ["No", "Question", "Answer"],
    rows := [[.num 1, .str "Q1", .str "A1"]] }

/-! ### Order-theoretic facts about the sort key -/

theorem cellLe_total (a b : Cell) : Cell.le a b = true ∨ Cell.le b a = true := by
  cases a <;> cases b <;> simp [Cell.le]
  · exact le_total _ _
  · exact Nat.le_total _ _

theorem cellLe_trans (a b c : Cell) (hab : Cell.le a b = true)
    (hbc : Cell.le b c = true) : Cell.le a c = true := by
  cases a <;> cases b <;> cases c <;> simp_all [Cell.le]
  · exact le_trans hab hbc
  · exact Nat.le_trans hab hbc

theorem rowKeyLe_iff (S : List String) (iSec iQ : Nat) (a b : List Cell) :
    rowKeyLe S iSec iQ a b = true ↔
      (posIn S (a.getD iSec (.str "")) < posIn S (b.getD iSec (.str "")) ∨
       (posIn S (a.getD iSec (.str "")) = posIn S (b.getD iSec (.str "")) ∧
        Cell.le (a.getD iQ (.str "")) (b.getD iQ (.str "")) = true)) := by
  unfold rowKeyLe
  split
  · rename_i h
    exact iff_of_true rfl (Or.inl h)
  · rename_i h
    split
    · rename_i h2
      constructor
      · intro hq
        exact Or.inr ⟨h2, hq⟩
      · intro hor
        rcases hor with hlt | hand
        · exact absurd hlt h
        · exact hand.2
    · rename_i h2
      constructor
      · intro hfalse
        exact absurd hfalse (by simp)
      · intro hor
        rcases hor with hlt | hand
        · exact absurd hlt h
        · exact absurd hand.1 h2

theorem rowKeyLe_total (S : List String) (iSec iQ : Nat) (a b : List Cell) :
    rowKeyLe S iSec iQ a b = true ∨ rowKeyLe S iSec iQ b a = true := by
  rw [rowKeyLe_iff, rowKeyLe_iff]
  rcases Nat.lt_trichotomy (posIn S (a.getD iSec (.str "")))
      (posIn S (b.getD iSec (.str ""))) with hlt | heq | hgt
  · exact Or.inl (Or.inl hlt)
  · rcases cellLe_total (a.getD iQ (.str "")) (b.getD iQ (.str "")) with h | h
    · exact Or.inl (Or.inr ⟨heq, h⟩)
    · exact Or.inr (Or.inr ⟨heq.symm, h⟩)
  · exact Or.inr (Or.inl hgt)

theorem rowKeyLe_trans (S : List String) (iSec iQ : Nat) (a b c : List Cell)
    (hab : rowKeyLe S iSec iQ a b = true) (hbc : rowKeyLe S iSec iQ b c = true) :
    rowKeyLe S iSec iQ a c = true := by
  rw [rowKeyLe_iff] at hab hbc ⊢
  rcases hab with h1 | h1 <;> rcases hbc with h2 | h2
  · exact Or.inl (lt_trans h1 h2)
  · exact Or.inl (by omega)
  · exact Or.inl (by omega)
  · exact Or.inr ⟨by omega, cellLe_trans _ _ _ h1.2 h2.2⟩

/-! ### Claim theorems -/

/-- C1: for every row table with Section and question_num columns and every
non-empty ordered selection of sections, the filter/orderer returns exactly
(up to the stated order) the rows whose section is a member of the selection,
ordered primarily by the position of the section of each row within the
selection and secondarily by question number ascending within a section; in
particular the rows (SectionA,1,Q1,A1), (SectionA,2,Q2,A2), (SectionB,1,Q3,A3)
with the selection [SectionB, SectionA] yield the ordered sequence
(SectionB,1), (SectionA,1), (SectionA,2). -/
theorem viva_filter_order_spec (df : DataFrame) (S : List String) (iSec iQ : Nat)
    (hS : S ≠ [])
    (hSec : df.cols.findIdx? (fun x => x = "Section") = some iSec)
    (hQ : df.cols.findIdx? (fun x => x = "question_num") = some iQ) :
    (∃ out : DataFrame, filterOrderDF df S = .ok out ∧
      out.rows.Perm (df.rows.filter
        (fun r => Cell.isinStr (r.getD iSec (.str "")) S)) ∧
      out.rows.Pairwise (fun a b => rowKeyLe S iSec iQ a b = true)) ∧
    filterOrderDF exampleDF ["SectionB", "SectionA"] =
      .ok { cols := qaCols, rows := [exRowB1, exRowA1, exRowA2] } := by
  constructor
  · have hne : S.isEmpty = false := by
      cases S with
      | nil => exact absurd rfl hS
      | cons s ss => rfl
    have heq : filterOrderDF df S =
        .ok { cols := df.cols,
              rows := (df.rows.filter
                  (fun r => Cell.isinStr (r.getD iSec (.str "")) S)).insertionSort
                (fun a b => rowKeyLe S iSec iQ a b = true) } := by
      simp [filterOrderDF, hne, hSec, hQ]
    refine ⟨_, heq, ?_, ?_⟩
    · exact List.perm_insertionSort _ _
    · haveI : IsTotal (List Cell) (fun a b => rowKeyLe S iSec iQ a b = true) :=
        ⟨fun a b => rowKeyLe_total S iSec iQ a b⟩
      haveI : IsTrans (List Cell) (fun a b => rowKeyLe S iSec iQ a b = true) :=
        ⟨fun a b c => rowKeyLe_trans S iSec iQ a b c⟩
      exact List.sorted_insertionSort _ _
  · rfl

/-- C1 witness: the universal part of C1 instantiated at the example table. -/
theorem viva_filter_order_spec_witness :
    ∃ out : DataFrame, filterOrderDF exampleDF ["SectionB", "SectionA"] = .ok out ∧
      out.rows.Perm (exampleDF.rows.filter
        (fun r => Cell.isinStr (r.getD 0 (.str "")) ["SectionB", "SectionA"])) ∧
      out.rows.Pairwise
        (fun a b => rowKeyLe ["SectionB", "SectionA"] 0 1 a b = true) :=
  (viva_filter_order_spec exampleDF ["SectionB", "SectionA"] 0 1
    (List.cons_ne_nil _ _) rfl rfl).1

/-- C2: whenever the filtered sequence has a non-empty length N and the stored
current index is at least N, the clamp yields exactly N - 1, which is within
range, and the positional row fetch at the clamped index succeeds - so the
render never reads an out-of-range position and never throws. -/
theorem clamp_on_shrink (rows : List (List Cell)) (i : Nat)
    (hne : rows ≠ []) (hi : rows.length ≤ i) :
    clampIndex i rows.length = rows.length - 1 ∧
    clampIndex i rows.length < rows.length ∧
    ∃ r, iloc rows (clampIndex i rows.length) = .ok r := by
  have hpos : 0 < rows.length := List.length_pos.mpr hne
  have hclamp : clampIndex i rows.length = rows.length - 1 := by
    unfold clampIndex
    rw [if_pos hi]
  have hlt : rows.length - 1 < rows.length := by omega
  refine ⟨hclamp, by omega, ?_⟩
  rw [hclamp]
  unfold iloc
  rw [List.getElem?_eq_getElem hlt]
  exact ⟨_, rfl⟩

/-- C2 witness: C2 at a two-row sequence with stored index 5. -/
theorem clamp_on_shrink_witness :
    clampIndex 5 2 = 1 ∧ clampIndex 5 2 < 2 ∧
    ∃ r, iloc [[Cell.num 1], [Cell.num 2]] (clampIndex 5 2) = .ok r := by
  have h := clamp_on_shrink [[Cell.num 1], [Cell.num 2]] 5 (by simp) (by simp)
  simpa using h

/-- C4: in every active cursor state (N positive, index below N) the previous
transition computes max(index - 1, 0) and the next transition computes
min(index + 1, N - 1); in particular previous from 0 stays at 0 and next from
N - 1 stays at N - 1. -/
theorem nav_boundary (n i : Nat) (hn : 0 < n) (hi : i < n) :
    prevIndex i = max (i - 1) 0 ∧
    nextIndex n i = min (i + 1) (n - 1) ∧
    prevIndex 0 = 0 ∧
    nextIndex n (n - 1) = n - 1 := by
  unfold prevIndex nextIndex
  refine ⟨?_, ?_, rfl, ?_⟩ <;> split <;> omega

/-- C4 witness: C4 at N = 3, index 1. -/
theorem nav_boundary_witness :
    prevIndex 1 = max (1 - 1) 0 ∧ nextIndex 3 1 = min (1 + 1) (3 - 1) ∧
    prevIndex 0 = 0 ∧ nextIndex 3 (3 - 1) = 3 - 1 :=
  nav_boundary 3 1 (by decide) (by decide)

/-- C5: a parse failure of either input source makes the loader return the
explicit failure value none rather than propagate an exception, and the
renderer of each tab then shows its error state with zero records
displayed. -/
theorem loader_failure_contained (e : String) (selected : List String) (idx : Nat) :
    load_qa_data (.error e) = none ∧
    load_glossary_data (.error e) = none ∧
    viva_tab (load_qa_data (.error e)) selected idx =
      .ok (.errorMsg vivaLoadError, idx) ∧
    VivaView.recordCount (.errorMsg vivaLoadError) = 0 ∧
    glossary_tab (load_glossary_data (.error e)) =
      .ok (.errorMsg glossaryLoadError) ∧
    GlossaryView.recordCount (.errorMsg glossaryLoadError) = 0 :=
  ⟨rfl, rfl, rfl, rfl, rfl, rfl⟩

/-- C6: schema resolution precedence of the question loader - when a column
literally named "Question Number" exists, exactly that column is renamed to
question_num; otherwise a table of exactly 4 columns gets the positional names
Section, question_num, Question, Answer; otherwise a table of exactly 3
columns gets question_num, Question, Answer; any other column count passes
through unmodified. -/
theorem schema_resolution_precedence (cols : List String) :
    ("Question Number" ∈ cols →
      resolveSchema cols =
        cols.map (fun c => if c = "Question Number" then "question_num" else c)) ∧
    ("Question Number" ∉ cols → cols.length = 4 →
      resolveSchema cols = ["Section", "question_num", "Question", "Answer"]) ∧
    ("Question Number" ∉ cols → cols.length = 3 →
      resolveSchema cols = ["question_num", "Question", "Answer"]) ∧
    ("Question Number" ∉ cols → cols.length ≠ 4 → cols.length ≠ 3 →
      resolveSchema cols = cols) := by
  unfold resolveSchema
  refine ⟨fun h => ?_, fun h h4 => ?_, fun h h3 => ?_, fun h h4 h3 => ?_⟩
  · rw [if_pos h]
  · rw [if_neg h, if_pos h4]
  · rw [if_neg h, if_neg (by omega : ¬cols.length = 4), if_pos h3]
  · rw [if_neg h, if_neg h4, if_neg h3]

/-- C6 witness: the rename branch of C6 wins over the positional branch on a
4-column header containing "Question Number". -/
theorem schema_resolution_precedence_witness :
    resolveSchema ["Sec", "Question Number", "Q", "A"] =
      ["Sec", "question_num", "Q", "A"] :=
  ((schema_resolution_precedence ["Sec", "Question Number", "Q", "A"]).1
    (by decide)).trans (by decide)

/-- C7 is violated by the code: a successfully loaded 3-column question file
yields records with no Section column, and the Viva view then raises an
uncaught KeyError on the unconditional Section column access of app.py line
111, whatever the selection - it does not render with the 1-based positional
fallback of app.py line 219, which is unreachable for such a file. -/
theorem three_column_section_keyerror :
    load_qa_data (.ok threeColRaw) =
      some { cols := ["question_num", "Question", "Answer"],
             rows := [[.num 1, .str "Q1", .str "A1"]] } ∧
    viva_tab (load_qa_data (.ok threeColRaw)) ["SectionA"] 0 =
      .error (.keyError "Section") ∧
    viva_tab (load_qa_data (.ok threeColRaw)) [] 0 =
      .error (.keyError "Section") :=
  ⟨rfl, rfl, rfl⟩

/-- C8: with a non-empty filtered length N the random transition yields an
index in the inclusive range [0, N - 1] for every entropy value; in
particular with N = 1 it always yields 0. -/
theorem random_in_range (n entropy : Nat) (hn : 0 < n) :
    randomIndex n entropy < n ∧ randomIndex 1 entropy = 0 := by
  unfold randomIndex randint
  have h1 : n - 1 + 1 - 0 = n := by omega
  constructor
  · rw [h1]
    simpa using Nat.mod_lt entropy hn
  · simp [Nat.mod_one]

/-- C8 witness: C8 at N = 1 with entropy 42. -/
theorem random_in_range_witness :
    randomIndex 1 42 < 1 ∧ randomIndex 1 42 = 0 :=
  random_in_range 1 42 (by decide)

/-- C10: an input table that parses successfully but contains zero data rows
renders, in both tabs, exactly the same load-failure error state as a failed
load: the empty-table case and the load-failure case are identical views. -/
theorem empty_table_as_load_failure (cols selected : List String) (idx : Nat) :
    viva_tab (some { cols := cols, rows := [] }) selected idx =
      viva_tab none selected idx ∧
    viva_tab none selected idx = .ok (.errorMsg vivaLoadError, idx) ∧
    glossary_tab (some { cols := cols, rows := [] }) = glossary_tab none ∧
    glossary_tab none = .ok (.errorMsg glossaryLoadError) :=
  ⟨rfl, rfl, rfl, rfl⟩

/-- C3: filtering with an empty selection yields the empty sequence for every
table, and whenever the filtered sequence is empty the Viva view shows the
warning instead of a record, with all five navigation controls disabled. -/
theorem empty_filter_disables_navigation (df f : DataFrame)
    (selected : List String) (idx iSec : Nat)
    (hSec : df.cols.findIdx? (fun x => x = "Section") = some iSec)
    (hrows : df.rows ≠ [])
    (hfil : filterOrderDF df selected = .ok f) (hf : f.rows = []) :
    (∀ d : DataFrame, filterOrderDF d [] = .ok { cols := [], rows := [] }) ∧
    viva_tab (some df) selected idx =
      .ok (.emptyFilter noQuestionsWarning disabledNavButtons, idx) ∧
    disabledNavButtons.length = 5 ∧
    (∀ b ∈ disabledNavButtons, b.2 = true) := by
  have hcols : df.cols ≠ [] := by
    intro h
    rw [h] at hSec
    exact Option.noConfusion hSec
  have hemp : df.empty = false := by
    unfold DataFrame.empty
    cases hr : df.rows with
    | nil => exact absurd hr hrows
    | cons a as =>
      cases hc : df.cols with
      | nil => exact absurd hc hcols
      | cons b bs => rfl
  refine ⟨fun d => rfl, ?_, rfl, by decide⟩
  simp [viva_tab, hemp, DataFrame.col, hSec, hfil, hf]

/-- C3 witness: C3 at the example table with an empty selection. -/
theorem empty_filter_disables_navigation_witness :
    viva_tab (some exampleDF) [] 0 =
      .ok (.emptyFilter noQuestionsWarning disabledNavButtons, 0) ∧
    disabledNavButtons.length = 5 ∧
    (∀ b ∈ disabledNavButtons, b.2 = true) := by
  have h := empty_filter_disables_navigation exampleDF
    { cols := [], rows := [] } [] 0 0 rfl (by decide) rfl rfl
  exact ⟨h.2.1, h.2.2⟩

/-- C9: a load failure is terminal for the affected tab only - when the
question source fails the Viva tab shows its error state while the Glossary
tab renders exactly as its own load dictates, and when the glossary source
fails the Viva tab renders exactly as its own load dictates while the
Glossary tab shows its error state. -/
theorem tab_fault_isolation (e : String) (src : Except String DataFrame)
    (selected : List String) (idx : Nat) :
    (∀ g : GlossaryView, glossary_tab (load_glossary_data src) = .ok g →
      App.main (.error e) src selected idx =
        .ok ((.errorMsg vivaLoadError, idx), g)) ∧
    (∀ v : VivaView × Nat, viva_tab (load_qa_data src) selected idx = .ok v →
      App.main src (.error e) selected idx =
        .ok (v, .errorMsg glossaryLoadError)) := by
  constructor
  · intro g hg
    have hv : viva_tab (load_qa_data (.error e)) selected idx =
        .ok (.errorMsg vivaLoadError, idx) := rfl
    simp [App.main, hv, hg]
  · intro v hv
    have hg : glossary_tab (load_glossary_data (.error e)) =
        .ok (.errorMsg glossaryLoadError) := rfl
    simp [App.main, hv, hg]

/-- C9 witness: C9 with both sources failing. -/
theorem tab_fault_isolation_witness :
    App.main (.error "bad qa") (.error "bad glossary") [] 0 =
      .ok ((.errorMsg vivaLoadError, 0), .errorMsg glossaryLoadError) :=
  (tab_fault_isolation "bad qa" (.error "bad glossary") [] 0).1
    (.errorMsg glossaryLoadError) rfl
